import Mathlib

/-!
Verification of the cqueues DNS bindings (`src/dns.c`) against their
natural-language specification.

The file shallowly embeds the binding functions of `src/dns.c`.  The
underlying `dns.c` resolver library (`lib/dns.h`) is not part of the
sources under verification; where a binding delegates to a library
routine, that routine is either abstracted as an explicit function
parameter or, when a claim depends on its behaviour, modelled from the
specification (such definitions carry a `Modelled from the spec:` doc
comment).

Machine integers are modelled as `Nat` with explicit `% 2 ^ w` where the
C types can overflow.  Lua byte strings are modelled as `List Nat`
(one element per byte).
-/

namespace DnsSpec

/-- Section constants from `lib/dns.h` (`DNS_S_QD`, `DNS_S_AN`,
`DNS_S_NS`, `DNS_S_AR`), as registered by `luaopen__cqueues_dns_packet`:
bit flags for the four packet sections. -/
def DNS_S_QD : Nat := 1
def DNS_S_AN : Nat := 2
def DNS_S_NS : Nat := 4
def DNS_S_AR : Nat := 8

/-- The `DNS_T_A` resource-record type constant. -/
def DNS_T_A : Nat := 1

/-- The `DNS_C_IN` class constant. -/
def DNS_C_IN : Nat := 1

/-- A Lua byte string: one `Nat` per byte. -/
abbrev LuaStr := List Nat

/-- One Lua return value, as pushed by the bindings. -/
inductive LuaValue where
  | nil : LuaValue
  | boolean : Bool → LuaValue
  | integer : Nat → LuaValue
  | str : LuaStr → LuaValue
  | packet : Nat → LuaValue
  deriving DecidableEq, Repr

/-
 * P A C K E T  M O D E L
 *
 * `struct dns_packet` holds a byte buffer `data` of capacity `size`,
 * with `end` marking the number of valid wire bytes.  `dns_header(P)`
 * views the first 12 bytes of `data` as the DNS header; the flag bits
 * live in bytes 2 and 3 in standard wire layout.
 -/

/-- The packet state visible to the bindings: `size` is the buffer
capacity (`P->size`), `data` the byte buffer (`P->data`, always of
length `size`), `pend` the end cursor (`P->end`).  Derived state
(section cursors recomputed by `dns_p_study`, the compression
dictionary) is not modelled: it is a function of `data` and `pend`. -/
structure DnsPacket where
  size : Nat
  data : List Nat
  pend : Nat
  deriving DecidableEq, Repr

/-- Read byte `i` of a buffer (0 when out of range; the C code never
reads out of range for the accesses we model). -/
def byteAt (d : List Nat) (i : Nat) : Nat := d.getD i 0

/-- Write byte `i` of a buffer. -/
def setByte (d : List Nat) (i : Nat) (b : Nat) : List Nat := d.set i b

/-- The `ntohs(dns_header(P)->qid)`: bytes 0-1, big endian. -/
def hdr_qid (d : List Nat) : Nat := byteAt d 0 * 256 + byteAt d 1

/-- The `dns_header(P)->qr`: bit 7 of byte 2 (bit 15 of the flags word). -/
def hdr_qr (d : List Nat) : Nat := byteAt d 2 / 128 % 2

/-- The `dns_header(P)->opcode`: bits 3-6 of byte 2. -/
def hdr_opcode (d : List Nat) : Nat := byteAt d 2 / 8 % 16

/-- The `dns_header(P)->aa`: bit 2 of byte 2. -/
def hdr_aa (d : List Nat) : Nat := byteAt d 2 / 4 % 2

/-- The `dns_header(P)->tc`: bit 1 of byte 2 (bit 9 of the flags word). -/
def hdr_tc (d : List Nat) : Nat := byteAt d 2 / 2 % 2

/-- The `dns_header(P)->rd`: bit 0 of byte 2. -/
def hdr_rd (d : List Nat) : Nat := byteAt d 2 % 2

/-- The `dns_header(P)->ra`: bit 7 of byte 3. -/
def hdr_ra (d : List Nat) : Nat := byteAt d 3 / 128 % 2

/-- The `dns_header(P)->unused` (the `z` bits): bits 4-6 of byte 3. -/
def hdr_z (d : List Nat) : Nat := byteAt d 3 / 16 % 8

/-- The `dns_header(P)->rcode`: bits 0-3 of byte 3. -/
def hdr_rcode (d : List Nat) : Nat := byteAt d 3 % 16

/-- The `dns_header(P)->tc = 1`: set bit 1 of byte 2, leaving the other
bits of the byte unchanged. -/
def hdr_setTc (d : List Nat) : List Nat :=
  setByte d 2 (byteAt d 2 / 4 * 4 + 2 + byteAt d 2 % 2)

/-- The `memcpy(dst, src, n)` on byte buffers: overwrite the first `n`
bytes of `dst` with the first `n` bytes of `src`. -/
def memcpy (dst src : List Nat) (n : Nat) : List Nat :=
  src.take n ++ dst.drop n

/-- The `pkt_reload()` (src/dns.c:787).  If the input is larger than the
buffer (`P->size < size`), copy only `P->size` bytes, set the end
cursor to `P->size` and set the header `tc` bit; otherwise copy the
whole input and set the end cursor to its length.  (`dns_p_study` and
the dictionary rebuild that follow only recompute derived state and do
not touch `data`, `end` or the header.) -/
def pkt_reload (P : DnsPacket) (input : List Nat) : DnsPacket :=
  if P.size < input.length then
    { P with data := hdr_setTc (memcpy P.data input P.size), pend := P.size }
  else
    { P with data := memcpy P.data input input.length, pend := input.length }

/-- The `pkt_load()` (src/dns.c:1029): the `load` method simply calls
`pkt_reload` on the checked packet and input string. -/
def pkt_load (P : DnsPacket) (input : List Nat) : DnsPacket :=
  pkt_reload P input

/-- The `dns_p_calcsize`/`dns_p_init` as used by `pkt_new()`
(src/dns.c:804).  Modelled from the spec: `init(capacity)` yields a
zeroed packet whose buffer can hold at least a valid 12-byte header;
`dns_p_calcsize` rounds the requested size up to at least the header
size. -/
def pkt_new (prepbufsiz : Nat) : DnsPacket :=
  { size := max 12 prepbufsiz, data := List.replicate (max 12 prepbufsiz) 0, pend := 12 }

/-- The `pkt_new()` constructing a packet directly from a byte string
(src/dns.c:822): init then `pkt_reload`. -/
def pkt_new_from (input : List Nat) (prepbufsiz : Nat) : DnsPacket :=
  pkt_reload (pkt_new prepbufsiz) input

/-- The table built by `pkt_flags()` (src/dns.c:866). -/
structure DnsFlags where
  qr : Nat
  opcode : Nat
  aa : Nat
  tc : Nat
  rd : Nat
  ra : Nat
  z : Nat
  rcode : Nat
  deriving DecidableEq, Repr

/-- The `pkt_flags()` (src/dns.c:866): read the header bitfields. -/
def pkt_flags (P : DnsPacket) : DnsFlags :=
  { qr := hdr_qr P.data, opcode := hdr_opcode P.data, aa := hdr_aa P.data
  , tc := hdr_tc P.data, rd := hdr_rd P.data, ra := hdr_ra P.data
  , z := hdr_z P.data, rcode := hdr_rcode P.data }

/-- The byte-2 image of `pkt_setflags`: `hdr->qr = 0x01 & (flags >> 15)`,
`hdr->opcode = 0x0f & (flags >> 11)`, `hdr->aa = 0x01 & (flags >> 10)`,
`hdr->tc = 0x01 & (flags >> 9)`, `hdr->rd = 0x01 & (flags >> 8)` packed
at their wire positions. -/
def setflagsByte2 (flags : Nat) : Nat :=
  flags / 32768 % 2 * 128 + flags / 2048 % 16 * 8 +
    flags / 1024 % 2 * 4 + flags / 512 % 2 * 2 + flags / 256 % 2

/-- The byte-3 image of `pkt_setflags`: `hdr->ra = 0x01 & (flags >> 7)`,
`hdr->unused = 0x07 & (flags >> 4)`, `hdr->rcode = 0x0f & flags` packed
at their wire positions. -/
def setflagsByte3 (flags : Nat) : Nat :=
  flags / 128 % 2 * 128 + flags / 16 % 8 * 16 + flags % 16

/-- The `pkt_setflags()` with a numeric argument (src/dns.c:914-924): the
bitfield stores land in bytes 2 and 3 of the wire header. -/
def pkt_setflags (flags : Nat) (P : DnsPacket) : DnsPacket :=
  { P with data := setByte (setByte P.data 2 (setflagsByte2 flags)) 3 (setflagsByte3 flags) }

/-- The `pkt_qid()` (src/dns.c:845): `ntohs(dns_header(P)->qid)`. -/
def pkt_qid (P : DnsPacket) : Nat := hdr_qid P.data

/-- The `pkt_setqid()` (src/dns.c:854): `dns_header(P)->qid = htons(qid)`,
i.e. the low 16 bits of the argument land in bytes 0-1 big endian. -/
def pkt_setqid (qid : Nat) (P : DnsPacket) : DnsPacket :=
  { P with data := setByte (setByte P.data 0 (qid / 256 % 256)) 1 (qid % 256) }


/-
 * R E S O U R C E  R E C O R D  M O D E L
 *
 * `struct rr` (src/dns.c:94) copies the record attributes, the
 * expanded owner name, and (for non-question records) the parsed
 * type-specific payload out of the packet.  The C `union dns_any` is
 * modelled as a product; each accessor only reads its own member.
 -/

/-- The parsed payload of a record (`union dns_any`): the raw rdata
bytes, the expanded host name of NS/CNAME/PTR records, the IPv4/IPv6
address bytes of A/AAAA records. -/
structure RRData where
  rdata : LuaStr
  host : LuaStr
  addr4 : List Nat
  addr6 : List Nat
  deriving DecidableEq, Repr

/-- A resource-record view (`struct rr`): attributes copied from
`struct dns_rr` plus the expanded name and parsed data.  For
question-section entries `rr_push` leaves `data` zeroed and never
parses it (src/dns.c:161). -/
structure RR where
  section_ : Nat
  name : LuaStr
  rtype : Nat
  rclass : Nat
  ttl : Nat
  data : RRData
  deriving DecidableEq, Repr

/-- The `any_rdata()` (src/dns.c:223): question-section entries yield the
empty string, otherwise the raw rdata bytes. -/
def any_rdata (rr : RR) : LuaStr :=
  if rr.section_ = DNS_S_QD then [] else rr.data.rdata

/-- The `a_addr()` (src/dns.c:274): the text buffer starts out as the
empty string and `inet_ntop` (a libc routine, abstracted as `ntop4`)
only runs for non-question records. -/
def a_addr (ntop4 : List Nat → LuaStr) (rr : RR) : LuaStr :=
  if rr.section_ ≠ DNS_S_QD then ntop4 rr.data.addr4 else []

/-- The `aaaa_addr()` (src/dns.c:470): same shape as `a_addr` with
`inet_ntop(AF_INET6, ...)` abstracted as `ntop6`. -/
def aaaa_addr (ntop6 : List Nat → LuaStr) (rr : RR) : LuaStr :=
  if rr.section_ ≠ DNS_S_QD then ntop6 rr.data.addr6 else []

/-- The `ns_host()` (src/dns.c:304), shared by the NS, CNAME and PTR
metatables: question-section entries yield the empty string. -/
def ns_host (rr : RR) : LuaStr :=
  if rr.section_ = DNS_S_QD then [] else rr.data.host

/-- The `any__tostring()` (src/dns.c:234): question-section entries render
as the empty string; otherwise a record carrying the generic `ANY`
metatable renders its raw rdata and typed records go through
`dns_any_print` (a library routine, abstracted as `printFn`). -/
def any__tostring (printFn : RR → LuaStr) (isAnyClass : Bool) (rr : RR) : LuaStr :=
  if rr.section_ = DNS_S_QD then []
  else if isAnyClass then rr.data.rdata else printFn rr

/-- A concrete question-section record with nonempty payload fields,
used as a witness input. -/
def qdRR : RR :=
  { section_ := DNS_S_QD, name := [119], rtype := 5, rclass := 1, ttl := 30
  , data := { rdata := [1, 2], host := [3], addr4 := [127, 0, 0, 1], addr6 := [1] } }

/-
 * P A C K E T  P U S H
 -/

/-- Maximum encoded domain-name length (`DNS_D_MAXNAME`, 255 octets). -/
def DNS_D_MAXNAME : Nat := 255

/-- Maximum label count of a domain name (127 labels, spec 4.1). -/
def DNS_D_MAXLABELS : Nat := 127

/-- Split a name (a byte string) into its `.`-separated labels, the
final root label elided. 46 is the byte value of the dot. -/
def nameLabels (name : LuaStr) : List (List Nat) :=
  (name.splitOn 46).filter (fun l => l ≠ [])

/-- Wire encoding of a domain name without compression: each label is
prefixed by its length, the whole terminated by a zero octet. -/
def nameWire (name : LuaStr) : List Nat :=
  (nameLabels name).foldr (fun l acc => (l.length :: l) ++ acc) [0]

/-- Modelled from the spec: `dns_p_push` of the resolver library
(`lib/dns.h`, not under the sources being verified) appends a
question entry: the name is expanded into wire format, failing with a
name-too-long error when it exceeds the maximum domain-name length
(255 octets / 127 labels), or with a buffer-full error when the
remaining capacity cannot hold the entry (name + 2-byte type + 2-byte
class); on failure the packet is left unchanged.  Error codes follow
the library own taxonomy, abstracted here as distinct numbers. -/
def DNS_ENAME : Nat := 100
def DNS_ENOBUFS : Nat := 101

/-- Modelled from the spec: see `DNS_ENAME` above; the entry bytes
are written at the end cursor and the question count (header bytes
4-5) is incremented. -/
def dns_p_push (P : DnsPacket) (name : LuaStr) (rtype rclass : Nat) :
    Except Nat DnsPacket :=
  if DNS_D_MAXNAME < (nameWire name).length ∨ DNS_D_MAXLABELS < (nameLabels name).length then
    .error DNS_ENAME
  else if P.size < P.pend + (nameWire name).length + 4 then
    .error DNS_ENOBUFS
  else
    let entry := nameWire name ++ [rtype / 256 % 256, rtype % 256, rclass / 256 % 256, rclass % 256]
    let d := P.data.take P.pend ++ entry ++ P.data.drop (P.pend + entry.length)
    let qd := byteAt d 4 * 256 + byteAt d 5 + 1
    .ok { P with data := setByte (setByte d 4 (qd / 256 % 256)) 5 (qd % 256)
               , pend := P.pend + (nameWire name).length + 4 }

/-- The observable outcome of `pkt_push()`: return the packet itself,
return `nil` plus an error code, or raise a Lua argument error. -/
inductive PushResult where
  | ok : DnsPacket → PushResult
  | fail : Nat → PushResult
  | argError : String → PushResult
  deriving DecidableEq, Repr

/-- The `pkt_push()` (src/dns.c:957): `luaL_argcheck` rejects every
section other than `DNS_S_QUESTION` with the message "pushing RDATA
not yet supported"; for the question section it delegates to
`dns_p_push`, returning `nil` plus the error code on failure and the
packet itself on success. -/
def pkt_push (P : DnsPacket) (section_ : Nat) (name : LuaStr)
    (rtype rclass : Nat) : PushResult :=
  if section_ ≠ DNS_S_QD then .argError ("pushing RDATA not yet supported")
  else
    match dns_p_push P name rtype rclass with
    | .error e => .fail e
    | .ok P' => .ok P'

/-
 * H O S T S  M O D E L
 -/

/-- Address-family constants (`AF_INET`, `AF_INET6`, Linux values). -/
def AF_INET : Nat := 2
def AF_INET6 : Nat := 10

/-- A parsed socket address as produced by `dns_resconf_pton`: the
address family and the raw address bytes. -/
structure SockAddr where
  family : Nat
  addr : List Nat
  deriving DecidableEq, Repr

/-- One entry of the hosts table (spec 3: address family, address
bytes, domain name, is-alias flag). -/
structure HostEntry where
  af : Nat
  addr : List Nat
  name : LuaStr
  alias_ : Bool
  deriving DecidableEq, Repr

/-- The outcome of a binding call that either returns values or raises
a Lua error, together with the resulting hosts table. -/
inductive HostsInsertResult where
  | ok : List HostEntry → HostsInsertResult
  | luaError : String → List HostEntry → HostsInsertResult
  deriving DecidableEq, Repr

/-- Modelled from the spec: `dns_hosts_insert` of the resolver
library appends a single entry to the hosts table. -/
def dns_hosts_insert (hosts : List HostEntry) (af : Nat) (addr : List Nat)
    (dn : LuaStr) (alias_ : Bool) : List HostEntry :=
  hosts ++ [{ af := af, addr := addr, name := dn, alias_ := alias_ }]

/-- The `hosts_insert()` (src/dns.c:1730).  The address text is parsed by
the library routine `dns_resconf_pton` (abstracted as the `pton`
argument; per the spec it parses IPv4 or IPv6 text and fails with an
invalid-address error otherwise).  A parse failure jumps to the
`error:` label, which raises a Lua error built from the error code;
on success the parsed address is inserted under its family.  Note the
`default: break` arm of the family switch: a family that is neither
`AF_INET` nor `AF_INET6` inserts nothing yet still returns `true`. -/
def hosts_insert (pton : LuaStr → Except Nat SockAddr)
    (strerror : Nat → String) (hosts : List HostEntry)
    (ip : LuaStr) (dn : LuaStr) (alias_ : Bool) : HostsInsertResult :=
  match pton ip with
  | .error e => .luaError (strerror e) hosts
  | .ok sa =>
    if sa.family = AF_INET then
      .ok (dns_hosts_insert hosts AF_INET sa.addr dn alias_)
    else if sa.family = AF_INET6 then
      .ok (dns_hosts_insert hosts AF_INET6 sa.addr dn alias_)
    else
      .ok hosts

/-
 * R E S O L V E R  C O N S T R U C T I O N  (res_new)
 -/

/-- A resolver configuration as far as `res_new` inspects it: the
`recurse` option plus an identity tag so that "used as given" is
expressible. -/
structure Resconf where
  recurse : Bool
  tag : Nat
  deriving DecidableEq, Repr

/-- Opaque hosts handle (identity tag). -/
structure HostsH where
  tag : Nat
  deriving DecidableEq, Repr

/-- Opaque hints handle (identity tag). -/
structure HintsH where
  tag : Nat
  deriving DecidableEq, Repr

/-- Opaque resolver-engine handle (identity tag). -/
structure EngineH where
  tag : Nat
  deriving DecidableEq, Repr

/-- The fallible library constructors consumed by `res_new`
(`dns_resconf_local`, `dns_hosts_open`, `dns_hosts_local`,
`dns_hints_root`, `dns_hints_local`, `dns_res_open`); each either
yields a handle or an error code.  They live in the resolver library,
not in src/dns.c, so they are abstracted as an environment. -/
structure ResolverLib where
  resconf_local : Except Nat Resconf
  hosts_open : Except Nat HostsH
  hosts_local : Except Nat HostsH
  hints_root : Resconf → Except Nat HintsH
  hints_local : Resconf → Except Nat HintsH
  res_open : Resconf → HostsH → HintsH → Except Nat EngineH

/-- The `res_new()` (src/dns.c:2096), control flow only (the
reference-count acquire/release pairs do not affect the result):
a missing configuration argument is replaced by `dns_resconf_local`;
a missing hosts argument by `dns_hosts_open` when the `recurse` option of
the configuration is set, else `dns_hosts_local`; a missing hints
argument by `dns_hints_root` when `recurse` is set, else
`dns_hints_local`, both on the chosen configuration; any failure
aborts with the error code of that step, otherwise `dns_res_open` runs on
the three objects. -/
def res_new (lib : ResolverLib) (resconfArg : Option Resconf)
    (hostsArg : Option HostsH) (hintsArg : Option HintsH) :
    Except Nat EngineH :=
  match (match resconfArg with
         | some rc => Except.ok rc
         | none => lib.resconf_local) with
  | .error e => .error e
  | .ok resconf =>
    match (match hostsArg with
           | some h => Except.ok h
           | none => if resconf.recurse then lib.hosts_open else lib.hosts_local) with
    | .error e => .error e
    | .ok hosts =>
      match (match hintsArg with
             | some h => Except.ok h
             | none => if resconf.recurse then lib.hints_root resconf
                       else lib.hints_local resconf) with
      | .error e => .error e
      | .ok hints => lib.res_open resconf hosts hints

/-- The Lua-level return of `res_new()`: the resolver userdata on
success, `nil` paired with the error code on failure
(src/dns.c:2141-2149). -/
def res_new_lua (lib : ResolverLib) (resconfArg : Option Resconf)
    (hostsArg : Option HostsH) (hintsArg : Option HintsH) : List LuaValue :=
  match res_new lib resconfArg hostsArg hintsArg with
  | .error e => [LuaValue.nil, LuaValue.integer e]
  | .ok R => [LuaValue.packet R.tag]

/-- A concrete all-successful library environment, used as a witness
input. -/
def libW : ResolverLib :=
  { resconf_local := .ok { recurse := false, tag := 0 }
  , hosts_open := .ok { tag := 1 }
  , hosts_local := .ok { tag := 2 }
  , hints_root := fun _ => .ok { tag := 3 }
  , hints_local := fun _ => .ok { tag := 4 }
  , res_open := fun rc h hi => .ok { tag := rc.tag + h.tag + hi.tag } }

/-- A concrete library environment whose stub-configuration
constructor fails with error code 5, used as a witness input. -/
def libErrW : ResolverLib :=
  { libW with resconf_local := .error 5 }

/-
 * R E S O L V E R  M E T H O D S  A N D  C L O S E
 -/

/-- The `struct resolver` as far as the method guards see it: `res` is the
engine pointer, null after `res_close`/`res__gc`. -/
structure LResolver where
  res : Option EngineH
  deriving DecidableEq, Repr

/-- The outcome of a resolver method: either a value or a raised Lua
argument error. -/
inductive LuaRes (α : Type) where
  | ok : α → LuaRes α
  | argError : String → LuaRes α
  deriving DecidableEq, Repr

/-- The `res_check()` (src/dns.c:2171): a null engine pointer raises the
argument error "resolver defunct". -/
def res_check (R : LResolver) : LuaRes EngineH :=
  match R.res with
  | some r => .ok r
  | none => .argError ("resolver defunct")

/-- Shape shared by `res_submit`, `res_fetch`, `res_pollfd`,
`res_events`, `res_timeout`, `res_stat` (src/dns.c:2181-2298): first
`res_check`, then the method body `f` on the live engine. -/
def res_method {α : Type} (f : EngineH → α) (R : LResolver) : LuaRes α :=
  match res_check R with
  | .argError m => .argError m
  | .ok r => .ok (f r)

def res_submit_m (f : EngineH → List LuaValue) (R : LResolver) : LuaRes (List LuaValue) :=
  res_method f R

def res_fetch_m (f : EngineH → List LuaValue) (R : LResolver) : LuaRes (List LuaValue) :=
  res_method f R

def res_pollfd_m (f : EngineH → Nat) (R : LResolver) : LuaRes Nat :=
  res_method f R

def res_events_m (f : EngineH → LuaValue) (R : LResolver) : LuaRes LuaValue :=
  res_method f R

def res_timeout_m (f : EngineH → Nat) (R : LResolver) : LuaRes Nat :=
  res_method f R

def res_stat_m (f : EngineH → List LuaValue) (R : LResolver) : LuaRes (List LuaValue) :=
  res_method f R

/-- The `res_close()` (src/dns.c:2301): releases the engine
(`dns_res_close`, a safe no-op on null) and nulls the pointer; it
never consults `res_check`, so it is callable on a closed resolver. -/
def res_close (_R : LResolver) : LResolver :=
  { res := none }

/-- The `res_type()` (src/dns.c:2158): reports "dns resolver" for a live
engine and "closed dns resolver" after close; never raises. -/
def res_type (R : LResolver) : String :=
  match R.res with
  | some _ => "dns resolver"
  | none => "closed dns resolver"

/-
 * F A L L I B L E  R E T U R N  S H A P E S  (claim C7)
 *
 * Each binding below is modelled as the list of Lua values it
 * returns, as a function of the abstract outcome(s) of the library
 * calls it makes.
 -/

/-- The `RESCONF_NSSWITCH_CONF` selector constant (src/dns.c:1159). -/
def RESCONF_NSSWITCH_CONF : Nat := 1

/-- The `resconf_loadfile()` (src/dns.c:1489): picks
`dns_nssconf_loadfile` or `dns_resconf_loadfile` by the syntax
selector (their error codes abstracted as `nssErr`/`resErr`, zero
meaning success); a nonzero error yields `false` plus the code, else
`true`. -/
def resconf_loadfile (resErr nssErr selector : Nat) : List LuaValue :=
  let error := if selector = RESCONF_NSSWITCH_CONF then nssErr else resErr
  if error ≠ 0 then [LuaValue.boolean false, LuaValue.integer error]
  else [LuaValue.boolean true]

/-- The `resconf_loadpath()` (src/dns.c:1511): same shape over
`dns_nssconf_loadpath`/`dns_resconf_loadpath`. -/
def resconf_loadpath (resErr nssErr selector : Nat) : List LuaValue :=
  let error := if selector = RESCONF_NSSWITCH_CONF then nssErr else resErr
  if error ≠ 0 then [LuaValue.boolean false, LuaValue.integer error]
  else [LuaValue.boolean true]

/-- The `hosts_loadfile()` (src/dns.c:1706): the `dns_hosts_loadfile` error
code abstracted as `err`. -/
def hosts_loadfile (err : Nat) : List LuaValue :=
  if err ≠ 0 then [LuaValue.boolean false, LuaValue.integer err]
  else [LuaValue.boolean true]

/-- The `hosts_loadpath()` (src/dns.c:1718): same shape over
`dns_hosts_loadpath`. -/
def hosts_loadpath (err : Nat) : List LuaValue :=
  if err ≠ 0 then [LuaValue.boolean false, LuaValue.integer err]
  else [LuaValue.boolean true]

/-- The `res_submit()` (src/dns.c:2181): the `dns_res_submit` error code
abstracted as `err`; zero yields `true`, nonzero yields `false` plus
the code. -/
def res_submit (err : Nat) : List LuaValue :=
  if err = 0 then [LuaValue.boolean true]
  else [LuaValue.boolean false, LuaValue.integer err]

/-- The `res_fetch()` (src/dns.c:2201): `dns_res_check` (error code
`check`, zero meaning ready), then `dns_res_fetch` (a raw packet or
an error), then `dns_p_study` on the copied packet (error code
`study raw`).  Every failure lands at the `error:` label returning
`false` plus the code; success returns the decoded packet alone. -/
def res_fetch (check : Nat) (fetch : Except Nat Nat) (study : Nat → Nat)
    (copy : Nat → Nat) : List LuaValue :=
  if check ≠ 0 then [LuaValue.boolean false, LuaValue.integer check]
  else
    match fetch with
    | .error e => [LuaValue.boolean false, LuaValue.integer e]
    | .ok raw =>
      if study raw ≠ 0 then [LuaValue.boolean false, LuaValue.integer (study raw)]
      else [LuaValue.packet (copy raw)]

/-- The Lua-level return of `pkt_push()` (src/dns.c:957): the packet
itself on success, `nil` plus the error code on `dns_p_push` failure;
an `argError` raises, returning nothing. -/
def pkt_push_lua (P : DnsPacket) (section_ : Nat) (name : LuaStr)
    (rtype rclass : Nat) : Option (List LuaValue) :=
  match pkt_push P section_ name rtype rclass with
  | .ok P' => some [LuaValue.packet P'.pend]
  | .fail e => some [LuaValue.nil, LuaValue.integer e]
  | .argError _ => none

/-
 * M O D U L E - L E V E L  R A N D O M  (claim C9)
 -/

/-- The outcome of `dnsL_random()`: a pushed number, a raised
argument error, or (with exhausted modelling fuel) a still-spinning
rejection loop. -/
inductive RandomResult where
  | value : Nat → RandomResult
  | argError : String → RandomResult
  | spin : RandomResult
  deriving DecidableEq, Repr

/-- The rejection loop of `dnsL_random()` (src/dns.c:2394-2399):
draw successive outputs of `dns_random()` (the library generator,
abstracted as the stream `gen` of 32-bit values) until one is at
least `mn`.  `fuel` bounds the modelled iterations. -/
def rejectFrom (gen : Nat → Nat) (mn i fuel : Nat) : Option Nat :=
  match fuel with
  | 0 => none
  | fuel' + 1 =>
    let r := gen i % 2 ^ 32
    if mn ≤ r then some r else rejectFrom gen mn (i + 1) fuel'

/-- The `dnsL_random()` (src/dns.c:2381).  A missing argument defaults to
`UINT_MAX + 1.0`, in which case (as for any argument at least
`2 ^ 32`) a raw generator value is returned.  Otherwise `n` must
exceed 1 or the argument error "interval is empty" is raised; then
`min = -n % n` (unsigned arithmetic, i.e. `(2^32 - n) % n`) and the
rejection loop returns the first accepted value reduced mod `n`. -/
def dnsL_random (arg : Option Nat) (gen : Nat → Nat) (fuel : Nat) : RandomResult :=
  match arg with
  | none => .value (gen 0 % 2 ^ 32)
  | some n =>
    if 2 ^ 32 ≤ n then .value (gen 0 % 2 ^ 32)
    else if n ≤ 1 then .argError ("interval is empty")
    else
      let mn := (2 ^ 32 - n) % n
      match rejectFrom gen mn 0 fuel with
      | some r => .value (r % n)
      | none => .spin

/-
 * S S H F P  D I G E S T  (claim C10)
 -/

/-- The `DNS_SSHFP_SHA1` fingerprint-type constant from `lib/dns.h`
(SHA-1 = 1, RFC 4255), registered by `luaopen__cqueues_dns_record`. -/
def DNS_SSHFP_SHA1 : Nat := 1

/-- The SSHFP payload (`struct dns_sshfp`): algorithm, fingerprint
type, and the 20-byte SHA-1 digest member of the digest union. -/
structure SshfpRR where
  algo : Nat
  ftype : Nat
  sha1 : List Nat
  deriving DecidableEq, Repr

/-- The format option of `sshfp_digest`: `luaL_checkoption` over
`{"s", "x"}`. -/
inductive SshfpFmt where
  | s : SshfpFmt
  | x : SshfpFmt
  deriving DecidableEq, Repr

/-- The byte values of `"0123456789abcdef"`, the hex alphabet used by
`sshfp_digest`. -/
def hexAlphabet : List Nat :=
  [48, 49, 50, 51, 52, 53, 54, 55, 56, 57, 97, 98, 99, 100, 101, 102]

/-- The `"0123456789abcdef"[i]` for a nibble `i`. -/
def hexdigit (i : Nat) : Nat := hexAlphabet.getD i 0

/-- The hex rendering loop of `sshfp_digest` (src/dns.c:635-638): for
each byte, the digits of its high nibble `0x0f & (b >> 4)` and low
nibble `0x0f & b`. -/
def hexDump : List Nat → LuaStr
  | [] => []
  | b :: rest => hexdigit (b / 16 % 16) :: hexdigit (b % 16) :: hexDump rest

/-- The `sshfp_digest()` (src/dns.c:608).  It always pushes the numeric
fingerprint type first; for the SHA-1 type it renders the 20-byte
digest, as raw bytes for format "s" and as lowercase hex for format
"x" (also the `luaL_checkoption` default); for any other fingerprint
type the second value is `nil`. -/
def sshfp_digest (rr : SshfpRR) (fmtArg : Option SshfpFmt) : Nat × Option LuaStr :=
  let fmt := fmtArg.getD .x
  ( rr.ftype
  , if rr.ftype = DNS_SSHFP_SHA1 then
      match fmt with
      | .x => some (hexDump rr.sha1)
      | .s => some rr.sha1
    else none )

/-
 * T H E O R E M S
 -/

/- Helper lemmas about byte reads after byte writes. -/

theorem getD_set_eq (l : List Nat) (i b : Nat) (h : i < l.length) :
    (l.set i b).getD i 0 = b := by
  induction l generalizing i with
  | nil => simp at h
  | cons x xs ih =>
    cases i with
    | zero => simp [List.set, List.getD]
    | succ j =>
      simp only [List.set, List.getD_cons_succ]
      exact ih j (by simpa using h)

theorem getD_set_ne (l : List Nat) (i j b : Nat) (h : i ≠ j) :
    (l.set i b).getD j 0 = l.getD j 0 := by
  induction l generalizing i j with
  | nil => simp [List.set]
  | cons x xs ih =>
    cases i with
    | zero =>
      cases j with
      | zero => exact absurd rfl h
      | succ k => simp [List.set, List.getD]
    | succ i' =>
      cases j with
      | zero => simp [List.set, List.getD]
      | succ k =>
        simp only [List.set, List.getD_cons_succ]
        exact ih i' k (by omega)

theorem byteAt_setByte_eq (l : List Nat) (i b : Nat) (h : i < l.length) :
    byteAt (setByte l i b) i = b := getD_set_eq l i b h

theorem byteAt_setByte_ne (l : List Nat) (i j b : Nat) (h : i ≠ j) :
    byteAt (setByte l i b) j = byteAt l j := getD_set_ne l i j b h

theorem length_setByte (l : List Nat) (i b : Nat) :
    (setByte l i b).length = l.length := by simp [setByte]

theorem length_memcpy (dst src : List Nat) (n : Nat) :
    (memcpy dst src n).length = min n src.length + (dst.length - n) := by
  simp only [memcpy, List.length_append, List.length_take, List.length_drop]

theorem length_hdr_setTc (d : List Nat) : (hdr_setTc d).length = d.length := by
  simp [hdr_setTc, setByte]

/-- C1: loading bytes into a packet (`pkt_reload`, reached from both
`load` and packet construction from a byte string) copies at most the
capacity of the packet: the end cursor satisfies `end ≤ capacity`
afterwards, the buffer keeps exactly its capacity (no byte beyond the
capacity boundary is written), and when the input exceeds the
capacity exactly the prefix that fits is copied and the header
truncation (`tc`) flag is set. -/
theorem pkt_reload_respects_capacity (P : DnsPacket) (input : List Nat)
    (hlen : P.data.length = P.size) (h12 : 12 ≤ P.size) :
    (pkt_reload P input).pend ≤ P.size ∧
    (pkt_reload P input).size = P.size ∧
    (pkt_reload P input).data.length = P.size ∧
    (P.size < input.length →
      (pkt_reload P input).data = hdr_setTc (input.take P.size) ∧
      hdr_tc (pkt_reload P input).data = 1 ∧
      (pkt_reload P input).pend = P.size) ∧
    (input.length ≤ P.size →
      (pkt_reload P input).data = input ++ P.data.drop input.length ∧
      (pkt_reload P input).pend = input.length) := by
  have hdrop : P.data.drop P.size = [] := by
    rw [← hlen]; exact List.drop_length P.data
  by_cases hov : P.size < input.length
  · have hmem : memcpy P.data input P.size = input.take P.size := by
      simp [memcpy, hdrop]
    have htake : (input.take P.size).length = P.size := by
      simp [List.length_take]; omega
    have hb2 : 2 < (input.take P.size).length := by omega
    refine ⟨?_, ?_, ?_, ?_, ?_⟩
    · simp [pkt_reload, hov]
    · simp [pkt_reload, hov]
    · simp only [pkt_reload, if_pos hov]
      rw [hmem, length_hdr_setTc, htake]
    · intro _
      refine ⟨by simp [pkt_reload, hov, hmem], ?_, by simp [pkt_reload, hov]⟩
      simp only [pkt_reload, if_pos hov]
      rw [hmem]
      unfold hdr_tc hdr_setTc
      rw [byteAt_setByte_eq _ _ _ hb2]
      omega
    · intro hle; omega
  · push_neg at hov
    have htake : input.take input.length = input := List.take_length input
    refine ⟨?_, ?_, ?_, ?_, ?_⟩
    · simp [pkt_reload, Nat.not_lt_of_le hov, hov]
    · simp [pkt_reload, Nat.not_lt_of_le hov]
    · simp only [pkt_reload, if_neg (Nat.not_lt_of_le hov)]
      rw [length_memcpy]
      simp
      omega
    · intro hgt; omega
    · intro _
      constructor
      · simp only [pkt_reload, if_neg (Nat.not_lt_of_le hov)]
        simp [memcpy, htake]
      · simp [pkt_reload, Nat.not_lt_of_le hov]

/-- C1 witness: reloading 20 bytes into a 12-byte packet. -/
theorem pkt_reload_respects_capacity_witness :
    (pkt_reload (pkt_new 12) (List.replicate 20 7)).pend ≤ (pkt_new 12).size ∧
    hdr_tc (pkt_reload (pkt_new 12) (List.replicate 20 7)).data = 1 :=
  ⟨(pkt_reload_respects_capacity (pkt_new 12) (List.replicate 20 7)
      (by decide) (by decide)).1,
   ((pkt_reload_respects_capacity (pkt_new 12) (List.replicate 20 7)
      (by decide) (by decide)).2.2.2.1 (by decide)).2.1⟩

/-- C6: header fields round-trip through the packet accessors.  For
any 16-bit `f`, `setflags(f)` followed by `flags()` yields
`qr` = bit 15 of `f`, `opcode` = bits 11-14, `aa` = bit 10,
`tc` = bit 9, `rd` = bit 8, `ra` = bit 7, `z` = bits 4-6 and
`rcode` = bits 0-3 (each written below as division by the power of two
of the bit position followed by the field-width mask); and for any 16-bit `q`,
`setqid(q)` followed by `qid()` returns `q`. -/
theorem pkt_header_roundtrip (P : DnsPacket) (f q : Nat)
    (h12 : 12 ≤ P.data.length) (_hf : f < 65536) (hq : q < 65536) :
    (pkt_flags (pkt_setflags f P)).qr = f / 32768 % 2 ∧
    (pkt_flags (pkt_setflags f P)).opcode = f / 2048 % 16 ∧
    (pkt_flags (pkt_setflags f P)).aa = f / 1024 % 2 ∧
    (pkt_flags (pkt_setflags f P)).tc = f / 512 % 2 ∧
    (pkt_flags (pkt_setflags f P)).rd = f / 256 % 2 ∧
    (pkt_flags (pkt_setflags f P)).ra = f / 128 % 2 ∧
    (pkt_flags (pkt_setflags f P)).z = f / 16 % 8 ∧
    (pkt_flags (pkt_setflags f P)).rcode = f % 16 ∧
    pkt_qid (pkt_setqid q P) = q := by
  have h2 : 2 < P.data.length := by omega
  have h3 : 3 < (setByte P.data 2 (setflagsByte2 f)).length := by
    rw [length_setByte]; omega
  have hb2 : byteAt (pkt_setflags f P).data 2 = setflagsByte2 f := by
    simp only [pkt_setflags]
    rw [byteAt_setByte_ne _ 3 2 _ (by omega), byteAt_setByte_eq _ _ _ h2]
  have hb3 : byteAt (pkt_setflags f P).data 3 = setflagsByte3 f := by
    simp only [pkt_setflags]
    rw [byteAt_setByte_eq _ _ _ h3]
  have h0 : 0 < P.data.length := by omega
  have h1 : 1 < (setByte P.data 0 (q / 256 % 256)).length := by
    rw [length_setByte]; omega
  have hq0 : byteAt (pkt_setqid q P).data 0 = q / 256 % 256 := by
    simp only [pkt_setqid]
    rw [byteAt_setByte_ne _ 1 0 _ (by omega), byteAt_setByte_eq _ _ _ h0]
  have hq1 : byteAt (pkt_setqid q P).data 1 = q % 256 := by
    simp only [pkt_setqid]
    rw [byteAt_setByte_eq _ _ _ h1]
  refine ⟨?_, ?_, ?_, ?_, ?_, ?_, ?_, ?_, ?_⟩
  · simp only [pkt_flags, hdr_qr, hb2, setflagsByte2]; omega
  · simp only [pkt_flags, hdr_opcode, hb2, setflagsByte2]; omega
  · simp only [pkt_flags, hdr_aa, hb2, setflagsByte2]; omega
  · simp only [pkt_flags, hdr_tc, hb2, setflagsByte2]; omega
  · simp only [pkt_flags, hdr_rd, hb2, setflagsByte2]; omega
  · simp only [pkt_flags, hdr_ra, hb3, setflagsByte3]; omega
  · simp only [pkt_flags, hdr_z, hb3, setflagsByte3]; omega
  · simp only [pkt_flags, hdr_rcode, hb3, setflagsByte3]; omega
  · simp only [pkt_qid, hdr_qid, hq0, hq1]; omega

/-- C4: for every resource-record view in the Question section, the
data accessors — `rdata`, the A/AAAA address accessors, the
NS/CNAME/PTR host accessor, and the `__tostring` rendering — return
the empty string rather than raising, whatever name, type and class the record carries, and whatever the abstracted library renderers do. -/
theorem question_section_accessors_empty (rr : RR)
    (ntop4 ntop6 : List Nat → LuaStr) (printFn : RR → LuaStr)
    (isAnyClass : Bool) (hq : rr.section_ = DNS_S_QD) :
    any_rdata rr = [] ∧ a_addr ntop4 rr = [] ∧ aaaa_addr ntop6 rr = [] ∧
    ns_host rr = [] ∧ any__tostring printFn isAnyClass rr = [] := by
  simp [any_rdata, a_addr, aaaa_addr, ns_host, any__tostring, hq]

/-- C4 witness: a concrete question-section record whose payload
fields are nonempty still renders empty everywhere. -/
theorem question_section_accessors_empty_witness :
    any_rdata qdRR = [] ∧ a_addr (fun _ => [49]) qdRR = [] ∧
    aaaa_addr (fun _ => [50]) qdRR = [] ∧ ns_host qdRR = [] ∧
    any__tostring (fun _ => [51]) true qdRR = [] :=
  question_section_accessors_empty qdRR _ _ _ _ (by decide)

/-- C3 counterexample: pushing the name "x" (byte 120) with type A,
class IN to the Answer section of a fresh packet neither appends an
entry nor returns a failure marker with an error code — `pkt_push`
raises the Lua argument error "pushing RDATA not yet supported"
before reaching `dns_p_push`. -/
theorem pkt_push_answer_counterexample :
    pkt_push (pkt_new 512) DNS_S_AN [120] DNS_T_A DNS_C_IN =
      PushResult.argError ("pushing RDATA not yet supported") ∧
    ¬ ((∃ P', pkt_push (pkt_new 512) DNS_S_AN [120] DNS_T_A DNS_C_IN = PushResult.ok P') ∨
       (∃ e, pkt_push (pkt_new 512) DNS_S_AN [120] DNS_T_A DNS_C_IN = PushResult.fail e)) := by
  have h : pkt_push (pkt_new 512) DNS_S_AN [120] DNS_T_A DNS_C_IN =
      PushResult.argError ("pushing RDATA not yet supported") := rfl
  exact ⟨h, by simp [h]⟩

/-- C3 amended: `pkt_push` appends a question entry only when the
section argument is the Question section; every other section raises
the Lua argument error "pushing RDATA not yet supported".  For the
Question section the push fails with the name-too-long error when the
expanded name exceeds the maximum domain-name length (255 octets /
127 labels) and with the buffer-full error when the remaining
capacity cannot hold the entry, returning `nil` plus the code with
the packet unchanged; otherwise it succeeds and the entry extends the
packet by the encoded name plus type and class. -/
theorem pkt_push_question_only (P : DnsPacket) (section_ : Nat)
    (name : LuaStr) (rtype rclass : Nat) :
    (section_ ≠ DNS_S_QD →
      pkt_push P section_ name rtype rclass =
        PushResult.argError ("pushing RDATA not yet supported")) ∧
    ((DNS_D_MAXNAME < (nameWire name).length ∨
        DNS_D_MAXLABELS < (nameLabels name).length) →
      pkt_push P DNS_S_QD name rtype rclass = PushResult.fail DNS_ENAME) ∧
    ((nameWire name).length ≤ DNS_D_MAXNAME →
      (nameLabels name).length ≤ DNS_D_MAXLABELS →
      P.size < P.pend + (nameWire name).length + 4 →
      pkt_push P DNS_S_QD name rtype rclass = PushResult.fail DNS_ENOBUFS) ∧
    ((nameWire name).length ≤ DNS_D_MAXNAME →
      (nameLabels name).length ≤ DNS_D_MAXLABELS →
      P.pend + (nameWire name).length + 4 ≤ P.size →
      ∃ P', pkt_push P DNS_S_QD name rtype rclass = PushResult.ok P' ∧
        P'.pend = P.pend + (nameWire name).length + 4 ∧
        P'.size = P.size) := by
  refine ⟨?_, ?_, ?_, ?_⟩
  · intro h
    simp [pkt_push, h]
  · intro h
    have hne : ¬ (DNS_S_QD ≠ DNS_S_QD) := by simp
    simp only [pkt_push, if_neg hne, dns_p_push, if_pos h]
  · intro h1 h2 h3
    have hne : ¬ (DNS_S_QD ≠ DNS_S_QD) := by simp
    have hno : ¬ (DNS_D_MAXNAME < (nameWire name).length ∨
        DNS_D_MAXLABELS < (nameLabels name).length) := by omega
    simp only [pkt_push, if_neg hne, dns_p_push, if_pos h3, if_neg hno]
  · intro h1 h2 h3
    have hne : ¬ (DNS_S_QD ≠ DNS_S_QD) := by simp
    have hno : ¬ (DNS_D_MAXNAME < (nameWire name).length ∨
        DNS_D_MAXLABELS < (nameLabels name).length) := by omega
    have hfit : ¬ (P.size < P.pend + (nameWire name).length + 4) := by omega
    have hpush : ∃ P2, dns_p_push P name rtype rclass = .ok P2 ∧
        P2.pend = P.pend + (nameWire name).length + 4 ∧ P2.size = P.size := by
      simp only [dns_p_push, if_neg hno, if_neg hfit]
      exact ⟨_, rfl, rfl, rfl⟩
    obtain ⟨P2, hP2, hpend, hsize⟩ := hpush
    refine ⟨P2, ?_, hpend, hsize⟩
    simp only [pkt_push, if_neg hne, hP2]

set_option maxRecDepth 4096 in
/-- C3 witness (amended claim): the four outcomes at concrete inputs:
the Answer section raises; an over-long name fails with the
name-too-long code; a full packet fails with the buffer-full code; a
small name on a fresh packet succeeds. -/
theorem pkt_push_question_only_witness :
    pkt_push (pkt_new 512) DNS_S_AN [120] DNS_T_A DNS_C_IN =
      PushResult.argError ("pushing RDATA not yet supported") ∧
    pkt_push (pkt_new 512) DNS_S_QD (List.replicate 300 97) DNS_T_A DNS_C_IN =
      PushResult.fail DNS_ENAME ∧
    pkt_push (pkt_new 12) DNS_S_QD [120] DNS_T_A DNS_C_IN =
      PushResult.fail DNS_ENOBUFS ∧
    ∃ P', pkt_push (pkt_new 512) DNS_S_QD [120] DNS_T_A DNS_C_IN =
      PushResult.ok P' ∧ P'.pend = 12 + 3 + 4 :=
  ⟨(pkt_push_question_only (pkt_new 512) DNS_S_AN [120] DNS_T_A DNS_C_IN).1 (by decide),
   (pkt_push_question_only (pkt_new 512) DNS_S_QD (List.replicate 300 97) DNS_T_A DNS_C_IN).2.1
     (by decide),
   (pkt_push_question_only (pkt_new 12) DNS_S_QD [120] DNS_T_A DNS_C_IN).2.2.1
     (by decide) (by decide) (by decide),
   by
     obtain ⟨P', hP', hpend, _⟩ :=
       (pkt_push_question_only (pkt_new 512) DNS_S_QD [120] DNS_T_A DNS_C_IN).2.2.2
         (by decide) (by decide) (by decide)
     exact ⟨P', hP', by rw [hpend]; decide⟩⟩

/-- C5: `hosts_insert` adds exactly one entry and returns success
when the address text parses (via the library `dns_resconf_pton`,
abstracted as `pton`) as IPv4 or IPv6; when the text parses as
neither, the parse error is raised as a Lua error and the hosts table
is unchanged. -/
theorem hosts_insert_spec (pton : LuaStr → Except Nat SockAddr)
    (strerror : Nat → String) (hosts : List HostEntry)
    (ip dn : LuaStr) (alias_ : Bool) (sa : SockAddr) (e : Nat) :
    (pton ip = .ok sa → (sa.family = AF_INET ∨ sa.family = AF_INET6) →
      hosts_insert pton strerror hosts ip dn alias_ =
        .ok (hosts ++ [{ af := sa.family, addr := sa.addr, name := dn, alias_ := alias_ }])) ∧
    (pton ip = .error e →
      hosts_insert pton strerror hosts ip dn alias_ = .luaError (strerror e) hosts) := by
  constructor
  · intro hok hfam
    rcases hfam with h4 | h6
    · simp [hosts_insert, hok, h4, dns_hosts_insert]
    · simp [hosts_insert, hok, h6, dns_hosts_insert, AF_INET, AF_INET6]
  · intro herr
    simp [hosts_insert, herr]

/-- C5 witness: a parsed IPv4 address is appended; a parse failure
raises and leaves the table untouched. -/
theorem hosts_insert_spec_witness :
    hosts_insert (fun _ => .ok { family := AF_INET, addr := [127, 0, 0, 1] })
        (fun _ => "invalid address") [] [49] [104] false =
      .ok [{ af := AF_INET, addr := [127, 0, 0, 1], name := [104], alias_ := false }] ∧
    hosts_insert (fun _ => .error 22) (fun _ => "invalid address")
        [] [63] [104] false = .luaError ("invalid address") [] :=
  ⟨by
     have h := (hosts_insert_spec (fun _ => .ok { family := AF_INET, addr := [127, 0, 0, 1] })
       (fun _ => "invalid address") [] [49] [104] false
       { family := AF_INET, addr := [127, 0, 0, 1] } 0).1 rfl (Or.inl rfl)
     simpa using h,
   (hosts_insert_spec (fun _ => .error 22) (fun _ => "invalid address")
       [] [63] [104] false { family := AF_INET, addr := [] } 22).2 rfl⟩

/-- C6 witness: flags `0xAAAA` and qid `1234` on a fresh packet. -/
theorem pkt_header_roundtrip_witness :
    (pkt_flags (pkt_setflags 43690 (pkt_new 12))).tc = 43690 / 512 % 2 ∧
    pkt_qid (pkt_setqid 1234 (pkt_new 12)) = 1234 :=
  ⟨(pkt_header_roundtrip (pkt_new 12) 43690 1234 (by decide) (by decide)
      (by decide)).2.2.2.1,
   (pkt_header_roundtrip (pkt_new 12) 43690 1234 (by decide) (by decide)
      (by decide)).2.2.2.2.2.2.2.2⟩

/-- C2: the default-selection chain of `res_new`.  Caller-supplied
configuration, hosts and hints are used as given; a missing
configuration is replaced by the local stub (`dns_resconf_local`); a
missing hosts table by `dns_hosts_open` when the `recurse` option of
the configuration is set, else `dns_hosts_local`; a missing hints
table by `dns_hints_root` when `recurse` is set, else
`dns_hints_local`; and whenever a step fails the binding returns
`nil` paired with the error code of that step. -/
theorem res_new_default_chain (lib : ResolverLib) (rc : Resconf)
    (h : HostsH) (hi : HintsH) (rcArg : Option Resconf)
    (hostsArg : Option HostsH) (hintsArg : Option HintsH)
    (e : Nat) (eng : EngineH) :
    (res_new lib (some rc) (some h) (some hi) = lib.res_open rc h hi) ∧
    (lib.resconf_local = .ok rc →
      res_new lib none hostsArg hintsArg = res_new lib (some rc) hostsArg hintsArg) ∧
    (lib.resconf_local = .error e →
      res_new lib none hostsArg hintsArg = .error e) ∧
    (rc.recurse = true → lib.hosts_open = .ok h →
      res_new lib (some rc) none hintsArg = res_new lib (some rc) (some h) hintsArg) ∧
    (rc.recurse = true → lib.hosts_open = .error e →
      res_new lib (some rc) none hintsArg = .error e) ∧
    (rc.recurse = false → lib.hosts_local = .ok h →
      res_new lib (some rc) none hintsArg = res_new lib (some rc) (some h) hintsArg) ∧
    (rc.recurse = false → lib.hosts_local = .error e →
      res_new lib (some rc) none hintsArg = .error e) ∧
    (rc.recurse = true → lib.hints_root rc = .ok hi →
      res_new lib (some rc) (some h) none = res_new lib (some rc) (some h) (some hi)) ∧
    (rc.recurse = true → lib.hints_root rc = .error e →
      res_new lib (some rc) (some h) none = .error e) ∧
    (rc.recurse = false → lib.hints_local rc = .ok hi →
      res_new lib (some rc) (some h) none = res_new lib (some rc) (some h) (some hi)) ∧
    (rc.recurse = false → lib.hints_local rc = .error e →
      res_new lib (some rc) (some h) none = .error e) ∧
    (res_new lib rcArg hostsArg hintsArg = .error e →
      res_new_lua lib rcArg hostsArg hintsArg = [LuaValue.nil, LuaValue.integer e]) ∧
    (res_new lib rcArg hostsArg hintsArg = .ok eng →
      res_new_lua lib rcArg hostsArg hintsArg = [LuaValue.packet eng.tag]) := by
  refine ⟨rfl, ?_, ?_, ?_, ?_, ?_, ?_, ?_, ?_, ?_, ?_, ?_, ?_⟩
  · intro hloc; simp only [res_new, hloc]
  · intro hloc; simp only [res_new, hloc]
  · intro hrec hopen; simp [res_new, hrec, hopen]
  · intro hrec hopen; simp [res_new, hrec, hopen]
  · intro hrec hopen; simp [res_new, hrec, hopen]
  · intro hrec hopen; simp [res_new, hrec, hopen]
  · intro hrec hopen; simp [res_new, hrec, hopen]
  · intro hrec hopen; simp [res_new, hrec, hopen]
  · intro hrec hopen; simp [res_new, hrec, hopen]
  · intro hrec hopen; simp [res_new, hrec, hopen]
  · intro heq; simp only [res_new_lua, heq]
  · intro heq; simp only [res_new_lua, heq]

/-- C2 witness: with an all-successful environment the missing
configuration is replaced by the local stub; with a failing stub
constructor the binding returns `nil` plus the error code 5. -/
theorem res_new_default_chain_witness :
    res_new libW none none none =
      res_new libW (some { recurse := false, tag := 0 }) none none ∧
    res_new_lua libErrW none none none = [LuaValue.nil, LuaValue.integer 5] :=
  ⟨(res_new_default_chain libW { recurse := false, tag := 0 } { tag := 2 }
      { tag := 4 } none none none 5 { tag := 6 }).2.1 rfl,
   (res_new_default_chain libErrW { recurse := false, tag := 0 } { tag := 2 }
      { tag := 4 } none none none 5 { tag := 6 }).2.2.2.2.2.2.2.2.2.2.2.1
     ((res_new_default_chain libErrW { recurse := false, tag := 0 } { tag := 2 }
        { tag := 4 } none none none 5 { tag := 6 }).2.2.1 rfl)⟩

/-- C8: after `close()`, every resolver operation guarded by
`res_check` — `submit`, `fetch`, `pollfd`, `events`, `timeout`,
`stat` — raises the argument error "resolver defunct" whatever the
engine would have computed (so the engine is never reached); `type`
reports "closed dns resolver"; `close` itself remains callable and
idempotent. -/
theorem closed_resolver_defunct (R : LResolver)
    (fsub ffet fstat : EngineH → List LuaValue) (fpol ftim : EngineH → Nat)
    (fev : EngineH → LuaValue) :
    res_submit_m fsub (res_close R) = .argError ("resolver defunct") ∧
    res_fetch_m ffet (res_close R) = .argError ("resolver defunct") ∧
    res_pollfd_m fpol (res_close R) = .argError ("resolver defunct") ∧
    res_events_m fev (res_close R) = .argError ("resolver defunct") ∧
    res_timeout_m ftim (res_close R) = .argError ("resolver defunct") ∧
    res_stat_m fstat (res_close R) = .argError ("resolver defunct") ∧
    res_type (res_close R) = "closed dns resolver" ∧
    res_close (res_close R) = res_close R :=
  ⟨rfl, rfl, rfl, rfl, rfl, rfl, rfl, rfl⟩

theorem loadBool_shape (a b c : Nat) :
    (if (if c = RESCONF_NSSWITCH_CONF then b else a) ≠ 0 then
        [LuaValue.boolean false,
         LuaValue.integer (if c = RESCONF_NSSWITCH_CONF then b else a)]
      else [LuaValue.boolean true]) = [LuaValue.boolean true] ∨
    ∃ e, e ≠ 0 ∧
      (if (if c = RESCONF_NSSWITCH_CONF then b else a) ≠ 0 then
        [LuaValue.boolean false,
         LuaValue.integer (if c = RESCONF_NSSWITCH_CONF then b else a)]
      else [LuaValue.boolean true]) =
        [LuaValue.boolean false, LuaValue.integer e] := by
  by_cases hz : (if c = RESCONF_NSSWITCH_CONF then b else a) ≠ 0
  · exact Or.inr ⟨_, hz, by rw [if_pos hz]⟩
  · exact Or.inl (by rw [if_neg hz])

/-- C7: each fallible binding returns either a success value carrying
no error, or a failure marker (`false`/`nil`) paired with the error
code — never a successful-looking value alongside an error.  Covered:
`resconf_loadfile`, `resconf_loadpath`, `hosts_loadfile`,
`hosts_loadpath`, `res_submit`, `res_fetch` (a decoded packet or
`false` plus the error, never both) and `pkt_push` (the packet or
`nil` plus the error). -/
theorem fallible_returns_wellformed
    (resErr nssErr resErrP nssErrP selector errF errP sErr check : Nat)
    (fetch : Except Nat Nat) (study copy : Nat → Nat)
    (P : DnsPacket) (section_ : Nat) (name : LuaStr) (rtype rclass : Nat) :
    (resconf_loadfile resErr nssErr selector = [LuaValue.boolean true] ∨
      ∃ e, e ≠ 0 ∧ resconf_loadfile resErr nssErr selector =
        [LuaValue.boolean false, LuaValue.integer e]) ∧
    (resconf_loadpath resErrP nssErrP selector = [LuaValue.boolean true] ∨
      ∃ e, e ≠ 0 ∧ resconf_loadpath resErrP nssErrP selector =
        [LuaValue.boolean false, LuaValue.integer e]) ∧
    (hosts_loadfile errF = [LuaValue.boolean true] ∨
      ∃ e, e ≠ 0 ∧ hosts_loadfile errF =
        [LuaValue.boolean false, LuaValue.integer e]) ∧
    (hosts_loadpath errP = [LuaValue.boolean true] ∨
      ∃ e, e ≠ 0 ∧ hosts_loadpath errP =
        [LuaValue.boolean false, LuaValue.integer e]) ∧
    (res_submit sErr = [LuaValue.boolean true] ∨
      ∃ e, e ≠ 0 ∧ res_submit sErr =
        [LuaValue.boolean false, LuaValue.integer e]) ∧
    ((∃ p, res_fetch check fetch study copy = [LuaValue.packet p]) ∨
      ∃ e, res_fetch check fetch study copy =
        [LuaValue.boolean false, LuaValue.integer e]) ∧
    (∀ p e, res_fetch check fetch study copy ≠
      [LuaValue.packet p, LuaValue.integer e]) ∧
    (∀ ret, pkt_push_lua P section_ name rtype rclass = some ret →
      (∃ t, ret = [LuaValue.packet t]) ∨
      ∃ e, ret = [LuaValue.nil, LuaValue.integer e]) := by
  have hfetch : (∃ p, res_fetch check fetch study copy = [LuaValue.packet p]) ∨
      ∃ e, res_fetch check fetch study copy =
        [LuaValue.boolean false, LuaValue.integer e] := by
    by_cases hc : check ≠ 0
    · exact Or.inr ⟨check, by simp [res_fetch, hc]⟩
    · cases fetch with
      | error e2 => exact Or.inr ⟨e2, by simp [res_fetch, hc]⟩
      | ok raw =>
        by_cases hs : study raw ≠ 0
        · exact Or.inr ⟨study raw, by simp [res_fetch, hc, hs]⟩
        · exact Or.inl ⟨copy raw, by simp [res_fetch, hc, hs]⟩
  refine ⟨loadBool_shape resErr nssErr selector, loadBool_shape resErrP nssErrP selector,
    ?_, ?_, ?_, hfetch, ?_, ?_⟩
  · by_cases hz : errF ≠ 0
    · exact Or.inr ⟨errF, hz, by simp [hosts_loadfile, hz]⟩
    · exact Or.inl (by simp [hosts_loadfile, hz])
  · by_cases hz : errP ≠ 0
    · exact Or.inr ⟨errP, hz, by simp [hosts_loadpath, hz]⟩
    · exact Or.inl (by simp [hosts_loadpath, hz])
  · by_cases hz : sErr = 0
    · exact Or.inl (by simp [res_submit, hz])
    · exact Or.inr ⟨sErr, hz, by simp [res_submit, hz]⟩
  · intro p e heq
    rcases hfetch with ⟨p2, hp2⟩ | ⟨e2, he2⟩
    · rw [hp2] at heq; exact absurd heq (by simp)
    · rw [he2] at heq; exact absurd heq (by simp)
  · intro ret hret
    cases hp : pkt_push P section_ name rtype rclass with
    | ok P2 =>
      simp only [pkt_push_lua, hp] at hret
      exact Or.inl ⟨P2.pend, by simp at hret; exact hret.symm⟩
    | fail e2 =>
      simp only [pkt_push_lua, hp] at hret
      exact Or.inr ⟨e2, by simp at hret; exact hret.symm⟩
    | argError m =>
      simp only [pkt_push_lua, hp] at hret
      exact absurd hret (by simp)

/-- C7 witness: `pkt_push` on a full packet returns `nil` plus the
buffer-full code, which has the failure shape. -/
theorem fallible_returns_wellformed_witness :
    (∃ t, [LuaValue.nil, LuaValue.integer DNS_ENOBUFS] = [LuaValue.packet t]) ∨
    ∃ e, [LuaValue.nil, LuaValue.integer DNS_ENOBUFS] =
      [LuaValue.nil, LuaValue.integer e] :=
  (fallible_returns_wellformed 0 0 0 0 0 0 0 0 0 (.ok 0) (fun _ => 0) (fun _ => 0)
      (pkt_new 12) DNS_S_QD [120] DNS_T_A DNS_C_IN).2.2.2.2.2.2.2
    [LuaValue.nil, LuaValue.integer DNS_ENOBUFS] (by decide)

/-- C9: the module-level `random`.  With an argument `n` with
`1 < n ≤ UINT_MAX` every returned value lies in `[0, n)`; each
residue below `n` is reachable, because the rejection threshold
`min = -n % n` only discards generator values below `min` and a
suitable accepted value maps to any requested residue; with `n ≤ 1`
the argument error "interval is empty" is raised; with no argument a
full-range generator value is returned unchanged. -/
theorem dnsL_random_spec (n : Nat) (gen : Nat → Nat) (fuel : Nat) :
    (∀ r, 1 < n → n ≤ 2 ^ 32 - 1 →
      dnsL_random (some n) gen fuel = RandomResult.value r → r < n) ∧
    (n ≤ 1 → dnsL_random (some n) gen fuel = RandomResult.argError ("interval is empty")) ∧
    (dnsL_random none gen fuel = RandomResult.value (gen 0 % 2 ^ 32)) ∧
    (1 < n → n ≤ 2 ^ 32 - 1 → ∀ t, t < n →
      ∃ v, dnsL_random (some n) (fun _ => v) 1 = RandomResult.value t) := by
  have h32pos : 0 < 2 ^ 32 := by positivity
  refine ⟨?_, ?_, rfl, ?_⟩
  · intro r h1 h2 hval
    have hn32 : ¬ (2 ^ 32 ≤ n) := by omega
    have hn1 : ¬ (n ≤ 1) := by omega
    simp only [dnsL_random, if_neg hn32, if_neg hn1] at hval
    cases hr : rejectFrom gen ((2 ^ 32 - n) % n) 0 fuel with
    | none => rw [hr] at hval; exact absurd hval (by simp)
    | some r0 =>
      rw [hr] at hval
      simp only [RandomResult.value.injEq] at hval
      rw [← hval]
      exact Nat.mod_lt r0 (by omega)
  · intro h1
    have hn32 : ¬ (2 ^ 32 ≤ n) := by omega
    simp [dnsL_random, hn32, h1]
    omega
  · intro h1 h2 t ht
    have hn32 : ¬ (2 ^ 32 ≤ n) := by omega
    have hn1 : ¬ (n ≤ 1) := by omega
    have hn0 : 0 < n := by omega
    -- the threshold and the chosen accepted generator value
    have hs : (2 ^ 32 - n) % n < n := Nat.mod_lt _ hn0
    have hsle : (2 ^ 32 - n) % n ≤ 2 ^ 32 - n := Nat.mod_le _ n
    have hu : (t + n - (2 ^ 32 - n) % n) % n < n := Nat.mod_lt _ hn0
    -- v = (2^32 - n) + ((t + n - s) % n) where s is the threshold
    have hv32 : 2 ^ 32 - n + (t + n - (2 ^ 32 - n) % n) % n < 2 ^ 32 := by omega
    refine ⟨2 ^ 32 - n + (t + n - (2 ^ 32 - n) % n) % n, ?_⟩
    have hvmod : (2 ^ 32 - n + (t + n - (2 ^ 32 - n) % n) % n) % 2 ^ 32 =
        2 ^ 32 - n + (t + n - (2 ^ 32 - n) % n) % n := Nat.mod_eq_of_lt hv32
    have hloop : rejectFrom (fun _ => 2 ^ 32 - n + (t + n - (2 ^ 32 - n) % n) % n)
        ((2 ^ 32 - n) % n) 0 1 =
        some (2 ^ 32 - n + (t + n - (2 ^ 32 - n) % n) % n) := by
      simp only [rejectFrom, hvmod]
      rw [if_pos (by omega :
        (2 ^ 32 - n) % n ≤ 2 ^ 32 - n + (t + n - (2 ^ 32 - n) % n) % n)]
    have hres : (2 ^ 32 - n + (t + n - (2 ^ 32 - n) % n) % n) % n = t := by
      have hk : n * ((2 ^ 32 - n) / n) + (2 ^ 32 - n) % n = 2 ^ 32 - n :=
        Nat.div_add_mod (2 ^ 32 - n) n
      generalize hsdef : (2 ^ 32 - n) % n = s at hk hs hsle ⊢
      rw [← hk, Nat.add_assoc, Nat.mul_add_mod]
      by_cases hts : s ≤ t
      · have hsub : t + n - s = (t - s) + n := by omega
        rw [hsub, Nat.add_mod_right, Nat.mod_eq_of_lt (by omega : t - s < n)]
        have hst : s + (t - s) = t := by omega
        rw [hst]
        exact Nat.mod_eq_of_lt ht
      · rw [Nat.mod_eq_of_lt (by omega : t + n - s < n)]
        have hst : s + (t + n - s) = t + n := by omega
        rw [hst, Nat.add_mod_right]
        exact Nat.mod_eq_of_lt ht
    simp only [dnsL_random, if_neg hn32, if_neg hn1, hloop, hres]

/-- C9 witness: with interval `[0, 5)` a generator output 9 yields
`9 % 5 = 4 < 5`; `n = 1` raises "interval is empty"; residue 3 is
reachable. -/
theorem dnsL_random_spec_witness :
    (4 : Nat) < 5 ∧
    dnsL_random (some 1) (fun _ => 0) 1 = RandomResult.argError ("interval is empty") ∧
    ∃ v, dnsL_random (some 5) (fun _ => v) 1 = RandomResult.value 3 :=
  ⟨(dnsL_random_spec 5 (fun _ => 9) 1).1 4 (by decide) (by norm_num) (by decide),
   (dnsL_random_spec 1 (fun _ => 0) 1).2.1 (by decide),
   (dnsL_random_spec 5 (fun _ => 0) 1).2.2.2 (by decide) (by norm_num) 3 (by decide)⟩

theorem hexdigit_mem (k : Nat) (h : k < 16) : hexdigit k ∈ hexAlphabet := by
  interval_cases k <;> decide

theorem length_hexDump (bs : List Nat) : (hexDump bs).length = 2 * bs.length := by
  induction bs with
  | nil => simp [hexDump]
  | cons b rest ih => simp [hexDump, ih]; omega

theorem hexDump_mem (bs : List Nat) : ∀ c ∈ hexDump bs, c ∈ hexAlphabet := by
  induction bs with
  | nil => simp [hexDump]
  | cons b rest ih =>
    intro c hc
    simp only [hexDump, List.mem_cons] at hc
    rcases hc with h | h | h
    · rw [h]; exact hexdigit_mem _ (Nat.mod_lt _ (by omega))
    · rw [h]; exact hexdigit_mem _ (Nat.mod_lt _ (by omega))
    · exact ih c h

/-- C10: `sshfp_digest` returns the numeric fingerprint type first;
when the fingerprint type is SHA-1, the default format and format "x"
render the 20-byte digest as a 40-character string over the lowercase
hex alphabet while format "s" returns the raw digest bytes; for any
other fingerprint type the second value is `nil` under every
format. -/
theorem sshfp_digest_spec (rr : SshfpRR) (fmtArg : Option SshfpFmt)
    (h20 : rr.sha1.length = 20) :
    (sshfp_digest rr fmtArg).1 = rr.ftype ∧
    sshfp_digest rr none = sshfp_digest rr (some SshfpFmt.x) ∧
    (rr.ftype = DNS_SSHFP_SHA1 →
      (sshfp_digest rr (some SshfpFmt.x)).2 = some (hexDump rr.sha1) ∧
      (hexDump rr.sha1).length = 40 ∧
      (∀ c ∈ hexDump rr.sha1, c ∈ hexAlphabet) ∧
      (sshfp_digest rr (some SshfpFmt.s)).2 = some rr.sha1) ∧
    (rr.ftype ≠ DNS_SSHFP_SHA1 → (sshfp_digest rr fmtArg).2 = none) := by
  refine ⟨rfl, rfl, ?_, ?_⟩
  · intro hsha
    refine ⟨by simp [sshfp_digest, hsha], ?_, hexDump_mem rr.sha1,
      by simp [sshfp_digest, hsha]⟩
    rw [length_hexDump, h20]
  · intro hsha
    simp [sshfp_digest, hsha]

/-- C10 witness: a concrete SHA-1 record renders 40 lowercase hex
characters, and a record with fingerprint type 2 yields `nil`. -/
theorem sshfp_digest_spec_witness :
    (sshfp_digest { algo := 1, ftype := DNS_SSHFP_SHA1, sha1 := List.replicate 20 171 } (some SshfpFmt.x)).2 = some (hexDump (List.replicate 20 171)) ∧
    (hexDump (List.replicate 20 171)).length = 40 ∧
    (sshfp_digest { algo := 1, ftype := 2, sha1 := List.replicate 20 171 } none).2 = none :=
  ⟨((sshfp_digest_spec { algo := 1, ftype := DNS_SSHFP_SHA1, sha1 := List.replicate 20 171 } (some SshfpFmt.x) (by decide)).2.2.1 rfl).1,
   ((sshfp_digest_spec { algo := 1, ftype := DNS_SSHFP_SHA1, sha1 := List.replicate 20 171 } (some SshfpFmt.x) (by decide)).2.2.1 rfl).2.1,
   (sshfp_digest_spec { algo := 1, ftype := 2, sha1 := List.replicate 20 171 } none (by decide)).2.2.2 (by decide)⟩

end DnsSpec
